import Mathlib

/-!
Verification development for the dart-detection core of the no-bulls-hit
repository (calibration, rectification dispatch, stillness state machine,
dart isolation and tip extraction, and coordinate-to-score mapping).

The TypeScript source is embedded shallowly:

* All numeric work that the source performs with JavaScript `number`s on
  exact decimal constants is modelled over `ℚ`.  The only real-valued
  steps of the source are the transcendental conversions
  `Math.sqrt(dx*dx+dy*dy)` and `Math.atan2`, and the OpenCV pixel kernels
  (`warpPerspective`, `absdiff`/`cvtColor`/`mean`, `findContours`,
  `findHomography`).  The score-mapping functions therefore take the
  point in polar form (distance from centre, atan2 angle in degrees) —
  exactly the two quantities the source derives from the point before any
  comparison — and the pixel kernels are modelled as inputs to the state
  step (the observed mean difference, the contour list, the warped frame
  token, the solver result).  Every comparison, branch, table lookup and
  state update of the source is modelled exactly.
* JavaScript `%` truncates toward zero (sign of the dividend); it is
  modelled by `jsmod`.  `Math.floor` is `Int.floor`.
* React `useState` setters only take effect on the next render: code
  inside one `processFrame` invocation keeps seeing the values captured
  at entry.  The model therefore branches on the entry values throughout
  and applies the queued updates to the returned state.  `useRef`
  mutations are immediate and are threaded directly.
-/

set_option maxRecDepth 40000

namespace NoBullsHit

/-- JavaScript truncation toward zero (`Math.trunc`, and the rounding used
by the `%` operator). -/
def jstrunc (q : ℚ) : ℤ :=
  if 0 ≤ q then ⌊q⌋ else -⌊-q⌋

/-- JavaScript remainder operator `a % b`: `a - b * trunc (a / b)`, so the
result carries the sign of the dividend. -/
def jsmod (a b : ℚ) : ℚ :=
  a - b * (jstrunc (a / b) : ℚ)

/-! ## Score mapping of the detector (`getScoreFromCoords`, part_003)

Constants from the source: `segmentScores` (line 72), the ring `radii`
record (line 79: doubleBull 8, singleBull 20, innerTriple 120,
outerTriple 135, innerDouble 200, outerDouble 215) and the 500×500 board
centre.  The source computes `distanceFromCenter = sqrt (dx²+dy²)` and
`angleRad = atan2 (-dy, dx)` from the canonical point; the embedding
takes exactly these two polar quantities as its inputs (`dist` is the
distance from the centre, `atan2Deg` the atan2 value scaled to degrees,
in `(-180, 180]`).  The radian pipeline of the source (normalise to
`[0, 2π)`, add `π/2`, reduce mod `2π`, scale by `180/π`) commutes with
the degree scaling, so it is written directly in degrees. -/

/-- Standard dartboard face values clockwise from the top
(`segmentScores`, part_003 lines 72–75). -/
def segmentScores : List ℕ :=
  [20, 1, 18, 4, 13, 6, 10, 15, 2, 17, 3, 19, 7, 16, 8, 11, 14, 9, 12, 5]

/-- Result record of `getScoreFromCoords` (score plus constant confidence). -/
structure ScoreResult where
  score : ℕ
  confidence : ℚ
deriving DecidableEq

/-- Detector score mapping, part_003 lines 92–143, on the polar form of a
non-null canonical point (the `null` guard of the source returns
score 0 / confidence 0 before any of this runs). -/
def getScoreFromCoords (dist atan2Deg : ℚ) : ScoreResult :=
  if dist ≤ 8 then ⟨50, 1⟩
  else if dist ≤ 20 then ⟨25, 1⟩
  else if 215 < dist then ⟨0, 1⟩
  else
    let norm := if atan2Deg < 0 then atan2Deg + 360 else atan2Deg
    let angleDeg := jsmod (norm + 90) 360
    let segmentIndex := (⌊jsmod (angleDeg + 9) 360 / 18⌋).toNat
    let baseScore := segmentScores.getD segmentIndex 0
    if 200 ≤ dist then ⟨baseScore * 2, 1⟩
    else if 120 ≤ dist ∧ dist ≤ 135 then ⟨baseScore * 3, 1⟩
    else ⟨baseScore, 1⟩

/-! ## Score mapping of the manual board (`calculateScore`, part_002,
with `DARTBOARD_CONFIG` and `DARTBOARD_NUMBERS` from dartboardConfig:
inner bull 6.35, outer bull 16, triple ring 91–99, double ring 162–170,
outer border 170, rotation baked into the literal `+ 99`). -/

/-- Face values in board order (`DARTBOARD_NUMBERS`). -/
def DARTBOARD_NUMBERS : List ℕ :=
  [20, 1, 18, 4, 13, 6, 10, 15, 2, 17, 3, 19, 7, 16, 8, 11, 14, 9, 12, 5]

/-- The `DartScore` record returned by the manual board. -/
structure DartScore where
  segment : ℕ
  multiplier : ℕ
  points : ℕ
  isBull : Bool
  isOuterBull : Bool
deriving DecidableEq

/-- Manual-board scoring, part_002 lines 65–115, on the polar form of the
click point (`dist` the distance from the centre, `atan2Deg` the
`Math.atan2 (dy, dx)` value in degrees, in `(-180, 180]`). -/
def calculateScore (dist atan2Deg : ℚ) : DartScore :=
  if dist ≤ 127 / 20 then ⟨25, 2, 50, true, false⟩
  else if dist ≤ 16 then ⟨25, 1, 25, false, true⟩
  else
    let angleRaw := jsmod (atan2Deg + 99) 360
    let angle := if angleRaw < 0 then angleRaw + 360 else angleRaw
    let segmentIndex := (⌊angle / 18⌋ % 20).toNat
    let segmentNumber := DARTBOARD_NUMBERS.getD segmentIndex 0
    let multiplier : ℕ :=
      if 91 ≤ dist ∧ dist ≤ 99 then 3
      else if 162 ≤ dist ∧ dist ≤ 170 then 2
      else 1
    if 170 < dist then ⟨0, 1, 0, false, false⟩
    else ⟨segmentNumber, multiplier, segmentNumber * multiplier, false, false⟩

example : getScoreFromCoords 60 90 = ⟨3, 1⟩ := by with_unfolding_all decide
example : getScoreFromCoords (255 / 2) 90 = ⟨9, 1⟩ := by with_unfolding_all decide
example : getScoreFromCoords 60 0 = ⟨6, 1⟩ := by with_unfolding_all decide
example : getScoreFromCoords 8 33 = ⟨50, 1⟩ := by with_unfolding_all decide
example : getScoreFromCoords 216 0 = ⟨0, 1⟩ := by with_unfolding_all decide
example : getScoreFromCoords 60 270 = ⟨20, 1⟩ := by with_unfolding_all decide
example : calculateScore 50 (-90) = ⟨20, 1, 20, false, false⟩ := by
  with_unfolding_all decide
example : calculateScore 95 (-90) = ⟨20, 3, 60, false, false⟩ := by
  with_unfolding_all decide

/-! ## Contour moments and dart-tip extraction (part_003 lines 40–67)

A contour is the list of its integer pixel points (`contour.data32S`).
`cv.moments(contour, false)` computes the polygon moments of the closed
contour by the Green-formula accumulation of OpenCV `contourMoments`
(cross products of consecutive vertices, with the previous vertex
initialised to the last one), then normalises the sign so that `m00 ≥ 0`;
the `FLT_EPSILON` guard of the float code is exact equality with 0 over
`ℚ`. -/

/-- Accumulated cross-product sums `(a00, a10, a01)` of OpenCV
`contourMoments`, over the vertex pairs (previous, current) with the
previous vertex starting at the last point of the contour. -/
def crossSums (pts : List (ℤ × ℤ)) : ℚ × ℚ × ℚ :=
  match pts.getLast? with
  | none => (0, 0, 0)
  | some lastP =>
    ((lastP :: pts).zip pts).foldl
      (fun (acc : ℚ × ℚ × ℚ) pr =>
        let xi1 : ℚ := (pr.1.1 : ℚ)
        let yi1 : ℚ := (pr.1.2 : ℚ)
        let xi : ℚ := (pr.2.1 : ℚ)
        let yi : ℚ := (pr.2.2 : ℚ)
        let dxy := xi1 * yi - xi * yi1
        (acc.1 + dxy, acc.2.1 + dxy * (xi1 + xi), acc.2.2 + dxy * (yi1 + yi)))
      (0, 0, 0)

/-- The spatial moments used by `findDartTip`. -/
structure Moments where
  m00 : ℚ
  m10 : ℚ
  m01 : ℚ
deriving DecidableEq

/-- Polygon moments of a contour (`cv.moments`), normalised so that the
zeroth moment is nonnegative. -/
def moments (pts : List (ℤ × ℤ)) : Moments :=
  let s := crossSums pts
  if s.1 = 0 then ⟨0, 0, 0⟩
  else if 0 < s.1 then ⟨s.1 / 2, s.2.1 / 6, s.2.2 / 6⟩
  else ⟨-s.1 / 2, -s.2.1 / 6, -s.2.2 / 6⟩

/-- `cv.contourArea`: absolute polygon area of the contour. -/
def contourArea (pts : List (ℤ × ℤ)) : ℚ :=
  |(crossSums pts).1| / 2

/-- Squared Euclidean distance from a contour point to the (rational)
point `(cX, cY)`, as computed by `dx*dx + dy*dy` in the source. -/
def distSqTo (cX cY : ℚ) (p : ℤ × ℤ) : ℚ :=
  ((p.1 : ℚ) - cX) * ((p.1 : ℚ) - cX) + ((p.2 : ℚ) - cY) * ((p.2 : ℚ) - cY)

/-- The strict-improvement selection loop shared by the tip finder and
the contour filter: scan a list, keeping the first element attaining the
running maximum of `f`, starting from `init`. -/
def argmaxFold (f : α → ℚ) (l : List α) (init : Option α × ℚ) : Option α × ℚ :=
  l.foldl (fun acc p => if acc.2 < f p then (some p, f p) else acc) init

/-- Dart-tip finder, part_003 lines 40–67: `null` for an empty contour or
a zero zeroth moment, otherwise the contour point furthest (in squared
distance, scanning in order with strict improvement) from the centroid
`(m10/m00, m01/m00)`. -/
def findDartTip (contour : List (ℤ × ℤ)) : Option (ℤ × ℤ) :=
  match contour with
  | [] => none
  | _ :: _ =>
    let M := moments contour
    if M.m00 = 0 then none
    else (argmaxFold (distSqTo (M.m10 / M.m00) (M.m01 / M.m00)) contour (none, -1)).1

/-- Dart-tip finder of the second source variant, part_003 lines 899–909:
the point with the greatest `y` (lowest on screen), scanning in order. -/
def findDartTipV2 (contour : List (ℤ × ℤ)) : Option (ℤ × ℤ) :=
  match contour with
  | [] => none
  | _ :: _ =>
    let tip := contour.foldl (fun t p => if p.2 > t.2 then p else t) ((0 : ℤ), (-1 : ℤ))
    if tip.2 ≠ -1 then some tip else none

example : moments [(0, 0), (4, 0), (0, 3)] = ⟨6, 8, 6⟩ := by
  with_unfolding_all decide
example : findDartTip [(0, 0), (4, 0), (0, 3)] = some (4, 0) := by
  with_unfolding_all decide
example : findDartTip [(0, 0), (4, 0), (8, 0)] = none := by
  with_unfolding_all decide
example : findDartTipV2 [(3, 5), (2, 9), (7, 9)] = some (2, 9) := by
  with_unfolding_all decide

/-! ## Detector state (part_003 `DartDetector`, first variant)

The React component state is modelled as one record.  `useState` values
(`isCalibrating`, `isStill`, `calibrationData`, `errorMsg`,
`clickedPoints`, `dimensions`, `detectedTip`) are only updated for the
*next* invocation — code inside one invocation keeps branching on the
values captured at entry, which the model reproduces by binding those
entry values before any update.  `useRef` values (`prevWarped`,
`stillBefore`, `stillAfter`, `lastDetectionTime`) and `localStorage`
(`storage`) mutate immediately.  A canonical `Frame` (a warped `cv.Mat`)
is identified by a token: its pixels enter the logic only through the
OpenCV kernels, which are modelled as inputs (`meanDiffObs` for
`absdiff`/`cvtColor`/`mean`, `contours` for
`threshold`/`findContours`), and `clone()` of an immutable frame is the
identity. -/

/-- Frame dimensions (`img.naturalWidth` × `img.naturalHeight`). -/
structure Dims where
  w : ℕ
  h : ℕ
deriving DecidableEq

/-- A canonical-space frame token (pixels abstracted, see above). -/
abbrev Frame := ℕ

/-- The `CalibrationData` record of the source (part_003 lines 7–12). -/
structure CalibrationData where
  imagePoints : List (ℚ × ℚ)
  worldPoints : List (ℚ × ℚ)
  homographyMatrix : Option (List ℚ)
  sourceDimensions : Dims
deriving DecidableEq

/-- The operator-visible error conditions set via `setError`. -/
inductive ErrMsg where
  | dimensionMismatch
  | calibrationFailed
deriving DecidableEq

/-- Detector component state (React state, refs, and `localStorage`). -/
structure DetectorState where
  cvLoaded : Bool
  isConnected : Bool
  isCalibrating : Bool
  isStill : Bool
  calibrationData : Option CalibrationData
  errorMsg : Option ErrMsg
  clickedPoints : List (ℚ × ℚ)
  dimensions : Dims
  detectedTip : Option (ℤ × ℤ)
  prevWarped : Option Frame
  stillBefore : Option Frame
  stillAfter : Option Frame
  lastDetectionTime : ℚ
  storage : Option CalibrationData
deriving DecidableEq

/-- Initial component state (the `useState`/`useRef` initialisers of
part_003 lines 145–169; in particular `isStill` starts `false`, i.e. the
stillness machine starts in `Moving`). -/
def initialDetectorState : DetectorState where
  cvLoaded := false
  isConnected := false
  isCalibrating := false
  isStill := false
  calibrationData := none
  errorMsg := none
  clickedPoints := []
  dimensions := ⟨640, 480⟩
  detectedTip := none
  prevWarped := none
  stillBefore := none
  stillAfter := none
  lastDetectionTime := 0
  storage := none

/-- `WORLD_POINTS_TARGET` (part_003 lines 19–24): canonical reference
points, order top / right / bottom / left outer double edges. -/
def WORLD_POINTS_TARGET : List (ℚ × ℚ) :=
  [(250, 10), (490, 250), (250, 490), (10, 250)]

/-- Contour filter of `detectDart` (part_003 lines 316–330): keep the
first contour of strictly maximal area among those with
`500 < area < 2000`, the running maximum starting at 0. -/
def selectLargest (contours : List (List (ℤ × ℤ))) : Option (List (ℤ × ℤ)) :=
  (contours.foldl
    (fun (acc : Option (List (ℤ × ℤ)) × ℚ) c =>
      let area := contourArea c
      if 500 < area ∧ area < 2000 ∧ acc.2 < area then (some c, area) else acc)
    (none, 0)).1

/-- Contour filter of the second variant (part_003 lines 1060–1072):
strictly maximal area among those with `area > 50`. -/
def selectLargestV2 (contours : List (List (ℤ × ℤ))) : Option (List (ℤ × ℤ)) :=
  (contours.foldl
    (fun (acc : Option (List (ℤ × ℤ)) × ℚ) c =>
      let area := contourArea c
      if acc.2 < area ∧ 50 < area then (some c, area) else acc)
    (none, 0)).1

/-- `detectDart` of the first variant (part_003 lines 279–397): clear the
previous tip, filter the contours of the thresholded difference of the
two frames (the pixel kernel is abstracted into the `contours` input),
extract the tip of the selected contour, record the detection time and
emit the tip on success, and in all cases finish by advancing the held
pre-throw reference to `frameAfter` (lines 393–395).  Returns the new
state and the emitted tip (whose score `getScoreFromCoords` reports to
`onDetectionUpdate`). -/
def detectDart (s : DetectorState) (frameAfter _frameBefore : Frame)
    (contours : List (List (ℤ × ℤ))) (now : ℚ) :
    DetectorState × Option (ℤ × ℤ) :=
  let s0 := { s with detectedTip := none }
  let step : DetectorState × Option (ℤ × ℤ) :=
    match selectLargest contours with
    | none => (s0, none)
    | some c =>
      match findDartTip c with
      | none => (s0, none)
      | some tip =>
        ({ s0 with detectedTip := some tip, lastDetectionTime := now }, some tip)
  ({ step.1 with stillBefore := some frameAfter }, step.2)

/-- `detectDart` of the second variant (part_003 lines 1039–1107): same
shape with the looser area filter and the lowest-point tip heuristic; it
keeps no detection timestamp, and likewise finishes by advancing the
pre-throw reference to `frameAfter` (lines 1103–1105). -/
def detectDartV2 (s : DetectorState) (frameAfter _frameBefore : Frame)
    (contours : List (List (ℤ × ℤ))) :
    DetectorState × Option (ℤ × ℤ) :=
  let s0 := { s with detectedTip := none }
  let step : DetectorState × Option (ℤ × ℤ) :=
    match selectLargestV2 contours with
    | none => (s0, none)
    | some c =>
      match findDartTipV2 c with
      | none => (s0, none)
      | some tip => ({ s0 with detectedTip := some tip }, some tip)
  ({ step.1 with stillBefore := some frameAfter }, step.2)

/-- What the invocation draws to the canvas. -/
inductive Display where
  | skipped
  | calibratingView
  | warpedView
  | rawView
deriving DecidableEq

/-- Per-invocation inputs of `processFrame`: the decoded frame's
dimensions, the warped frame produced by `cv.warpPerspective` (kernel
abstracted to its resulting token), the mean grayscale absolute
difference between the warped frame and the held previous warped frame
(kernel abstracted; only read when a previous frame exists), the contour
list of the detection difference (kernel abstracted), and the
`performance.now()` timestamp. -/
structure ProcInput where
  frameDims : Dims
  warpedFrame : Frame
  meanDiffObs : ℚ
  contours : List (List (ℤ × ℤ))
  now : ℚ
deriving DecidableEq

/-- Result of one `processFrame` invocation. -/
structure ProcOutput where
  state : DetectorState
  display : Display
  detectInvoked : Bool
deriving DecidableEq

/-- `processFrame` of the first variant (part_003 lines 400–641): guard
clauses; the dimension-mismatch check against the captured
`calibrationData` (lines 416–423, invoking `resetCalibration` without
returning — the mismatch `setError` of line 420 is queued before the
`setError(null)` inside `resetCalibration` at line 676, so the last
queued write leaves the error state null after the frame); then the
three-way display dispatch on the *captured*
`isCalibrating`/`calibrationData`; inside the calibrated branch the
stillness evaluation with motion threshold 2.5 and 1000 ms detection
cooldown (lines 465–502), the transition triggers (lines 504–533), and
the previous-frame advance (lines 535–537). -/
def processFrame (s : DetectorState) (inp : ProcInput) : ProcOutput :=
  if ¬ (s.cvLoaded ∧ s.isConnected) ∨ inp.frameDims.w = 0 then ⟨s, .skipped, false⟩
  else
    let isCalibratingL := s.isCalibrating
    let isStillL := s.isStill
    let cdL := s.calibrationData
    let s1 :=
      match cdL with
      | some cd =>
        if cd.sourceDimensions ≠ inp.frameDims then
          { s with calibrationData := none, storage := none,
                   errorMsg := none,
                   clickedPoints := [], isCalibrating := false }
        else s
      | none => s
    if isCalibratingL then ⟨s1, .calibratingView, false⟩
    else
      match cdL.bind (fun cd => cd.homographyMatrix) with
      | some _ =>
        let warped := inp.warpedFrame
        let outOfCooldown := 1000 < inp.now - s1.lastDetectionTime
        let stillStep : DetectorState × Bool :=
          if outOfCooldown then
            match s1.prevWarped with
            | some _ =>
              let calculatedIsStill := inp.meanDiffObs < 5 / 2
              if calculatedIsStill ≠ isStillL
              then ({ s1 with isStill := calculatedIsStill }, calculatedIsStill)
              else (s1, isStillL)
            | none => (s1, isStillL)
          else
            (if ¬ isStillL then { s1 with isStill := true } else s1, true)
        let s2 := stillStep.1
        let currentIsStill := stillStep.2
        let trigStep : DetectorState × Bool :=
          if currentIsStill ∧ ¬ isStillL ∧ outOfCooldown then
            match s2.stillBefore with
            | some before =>
              let s2a := { s2 with stillAfter := some warped }
              ((detectDart s2a warped before inp.contours inp.now).1, true)
            | none => ({ s2 with stillBefore := some warped }, false)
          else if ¬ currentIsStill ∧ isStillL then
            (if s2.stillBefore = none
             then { s2 with stillBefore := s2.prevWarped } else s2, false)
          else (s2, false)
        ⟨{ trigStep.1 with prevWarped := some warped }, .warpedView, trigStep.2⟩
      | none =>
        ⟨{ s1 with isStill := false, prevWarped := none, stillBefore := none,
                   stillAfter := none, detectedTip := none },
         .rawView, false⟩

/-- `calculateAndStoreHomography` (part_003 lines 682–731).  The OpenCV
solver `cv.findHomography(src, dst, cv.RANSAC)` is external numeric
code; it is abstracted into the `solve` input, `some h` standing for a
result that passes the `rows === 3 && cols === 3` validity check and
`none` for a null or invalid result.  On success the new record is
stored in state and `localStorage`; on failure only the error state
changes. -/
def calculateAndStoreHomography (s : DetectorState) (solve : Option (List ℚ)) :
    DetectorState :=
  if ¬ s.cvLoaded ∨ s.clickedPoints.length ≠ 4 then s
  else
    match solve with
    | some h =>
      let newCalibration : CalibrationData :=
        ⟨s.clickedPoints, WORLD_POINTS_TARGET, some h, s.dimensions⟩
      { s with calibrationData := some newCalibration,
               storage := some newCalibration,
               isCalibrating := false, clickedPoints := [], errorMsg := none }
    | none => { s with errorMsg := some .calibrationFailed }

/-- Shape of a JSON value parsed from the `dartboardCalibration`
`localStorage` key: each field may be absent or `null` (modelled
`none`).  A present JavaScript array is truthy regardless of length. -/
structure ParsedCalibration where
  imagePoints : Option (List (ℚ × ℚ))
  worldPoints : Option (List (ℚ × ℚ))
  homographyMatrix : Option (List ℚ)
  sourceDimensions : Dims
deriving DecidableEq

/-- Startup restore of a persisted calibration (part_003 lines 178–194):
if the three checked fields are truthy the parsed record becomes the
active calibration, otherwise (and likewise for unparseable JSON, folded
into `none` storage) nothing is restored and the stored key is removed.
Returns (restored record, storage afterwards). -/
def loadPersisted (stored : Option ParsedCalibration) :
    Option ParsedCalibration × Option ParsedCalibration :=
  match stored with
  | none => (none, none)
  | some d =>
    if d.imagePoints.isSome ∧ d.worldPoints.isSome ∧ d.homographyMatrix.isSome
    then (some d, some d)
    else (none, none)

/-! ## Sample data for concrete evaluations -/

/-- A 3×3 homography in row-major form (the identity), standing for a
successfully solved matrix. -/
def sampleHomography : List ℚ := [1, 0, 0, 0, 1, 0, 0, 0, 1]

/-- A valid calibration record for 640×480 source frames. -/
def sampleCalibration : CalibrationData :=
  ⟨[(10, 10), (600, 10), (600, 400), (10, 400)], WORLD_POINTS_TARGET,
    some sampleHomography, ⟨640, 480⟩⟩

/-- A connected, calibrated detector holding a previous warped frame. -/
def calibratedState : DetectorState :=
  { initialDetectorState with
      cvLoaded := true, isConnected := true,
      calibrationData := some sampleCalibration,
      storage := some sampleCalibration,
      prevWarped := some 7 }

/-- A frame whose dimensions (1280×720) differ from the 640×480 stored in
`sampleCalibration`, quiet contents (mean difference 1), arriving at
5000 ms. -/
def mismatchInput : ProcInput := ⟨⟨1280, 720⟩, 3, 1, [], 5000⟩

/-- A quiet frame observation (mean difference 1) at 2000 ms for a
640×480 calibrated session. -/
def stillInput : ProcInput := ⟨⟨640, 480⟩, 3, 1, [], 2000⟩

/-- An active frame observation (mean difference 100) at 2000 ms. -/
def activeInput : ProcInput := ⟨⟨640, 480⟩, 3, 100, [], 2000⟩

/-! ## Claim theorems -/

/-- The dart-detection routine never changes the stillness flag (it
touches only the tip, the detection timestamp and the pre-throw
reference). -/
lemma detectDart_isStill (s : DetectorState) (fa fb : Frame)
    (cs : List (List (ℤ × ℤ))) (t : ℚ) :
    (detectDart s fa fb cs t).1.isStill = s.isStill := by
  cases hsel : selectLargest cs with
  | none => simp [detectDart, hsel]
  | some c =>
    cases htp : findDartTip c with
    | none => simp [detectDart, hsel, htp]
    | some tip => simp [detectDart, hsel, htp]

/-- Core stillness evaluation: for a calibrated frame of matching
dimensions, outside the cooldown window and with a previous warped frame
held, the next stillness flag is exactly the comparison of the observed
mean difference against the motion threshold 2.5. -/
lemma processFrame_isStill_eval (s : DetectorState) (inp : ProcInput)
    (cd : CalibrationData) (hmx : List ℚ) (f : Frame)
    (hcv : s.cvLoaded = true) (hconn : s.isConnected = true)
    (hw : inp.frameDims.w ≠ 0) (hcal : s.isCalibrating = false)
    (hcd : s.calibrationData = some cd) (hhm : cd.homographyMatrix = some hmx)
    (hdim : cd.sourceDimensions = inp.frameDims)
    (hprev : s.prevWarped = some f)
    (hooc : 1000 < inp.now - s.lastDetectionTime) :
    (processFrame s inp).state.isStill = decide (inp.meanDiffObs < 5 / 2) := by
  by_cases hq : inp.meanDiffObs < 5 / 2 <;> by_cases hstill : s.isStill = true <;>
    (try rw [Bool.not_eq_true] at hstill) <;>
    cases hsb : s.stillBefore <;>
    simp [processFrame, hcv, hconn, hw, hcal, hcd, hhm, hdim, hprev, hooc, hq,
      hstill, hsb, detectDart_isStill]

/-- Claim C3.  The stillness state machine starts in `Moving`
(`isStill = false`), and on every step outside the cooldown window with
a previous frame held: a single observation below the motion threshold
2.5 while `Moving` transitions to `Still`; a single observation at or
above the threshold while `Still` transitions to `Moving`; an
observation agreeing with the current state leaves it unchanged. -/
theorem stillness_hysteresis :
    initialDetectorState.isStill = false ∧
    ∀ (s : DetectorState) (inp : ProcInput) (cd : CalibrationData)
      (hmx : List ℚ) (f : Frame),
      s.cvLoaded = true → s.isConnected = true → inp.frameDims.w ≠ 0 →
      s.isCalibrating = false → s.calibrationData = some cd →
      cd.homographyMatrix = some hmx → cd.sourceDimensions = inp.frameDims →
      s.prevWarped = some f → 1000 < inp.now - s.lastDetectionTime →
      (s.isStill = false → inp.meanDiffObs < 5 / 2 →
        (processFrame s inp).state.isStill = true) ∧
      (s.isStill = true → 5 / 2 ≤ inp.meanDiffObs →
        (processFrame s inp).state.isStill = false) ∧
      ((s.isStill = true ↔ inp.meanDiffObs < 5 / 2) →
        (processFrame s inp).state.isStill = s.isStill) := by
  refine ⟨rfl, fun s inp cd hmx f hcv hconn hw hcal hcd hhm hdim hprev hooc => ?_⟩
  have hcore := processFrame_isStill_eval s inp cd hmx f hcv hconn hw hcal hcd
    hhm hdim hprev hooc
  refine ⟨fun _ hq => ?_, fun _ hq => ?_, fun hiff => ?_⟩
  · rw [hcore, decide_eq_true_iff]
    exact hq
  · rw [hcore, decide_eq_false_iff_not]
    exact not_lt.mpr hq
  · rw [hcore]
    by_cases hq : inp.meanDiffObs < 5 / 2
    · rw [hiff.mpr hq, decide_eq_true_iff]
      exact hq
    · rw [decide_eq_false hq]
      cases hb : s.isStill
      · rfl
      · exact absurd (hiff.mp hb) hq

/-- Witness for C3: a quiet observation (mean difference 1 < 2.5) on the
calibrated session, which starts `Moving`, flips the state to `Still`. -/
theorem stillness_hysteresis_witness :
    calibratedState.isStill = false ∧ stillInput.meanDiffObs < 5 / 2 ∧
    (processFrame calibratedState stillInput).state.isStill = true :=
  ⟨by with_unfolding_all decide, by with_unfolding_all decide,
   ((stillness_hysteresis.2 calibratedState stillInput sampleCalibration
      sampleHomography 7
      (by with_unfolding_all decide) (by with_unfolding_all decide)
      (by with_unfolding_all decide) (by with_unfolding_all decide)
      (by with_unfolding_all decide) (by with_unfolding_all decide)
      (by with_unfolding_all decide) (by with_unfolding_all decide)
      (by with_unfolding_all decide)).1
      (by with_unfolding_all decide) (by with_unfolding_all decide))⟩

/-- Claim C4.  For any frame processed within the 1000 ms cooldown
window after the last successful detection, motion evaluation is
suppressed and the state is forced to `Still`, and the detection routine
is not invoked — whatever the observed mean difference and contours of
the frame are. -/
theorem cooldown_suppresses_detection (s : DetectorState) (inp : ProcInput)
    (cd : CalibrationData) (hmx : List ℚ)
    (hcv : s.cvLoaded = true) (hconn : s.isConnected = true)
    (hw : inp.frameDims.w ≠ 0) (hcal : s.isCalibrating = false)
    (hcd : s.calibrationData = some cd) (hhm : cd.homographyMatrix = some hmx)
    (hdim : cd.sourceDimensions = inp.frameDims)
    (hcool : inp.now - s.lastDetectionTime ≤ 1000) :
    (processFrame s inp).detectInvoked = false ∧
    (processFrame s inp).state.isStill = true := by
  have hnc : ¬ (1000 < inp.now - s.lastDetectionTime) := not_lt.mpr hcool
  constructor <;>
    by_cases hstill : s.isStill = true <;>
    (try rw [Bool.not_eq_true] at hstill) <;>
    simp [processFrame, hcv, hconn, hw, hcal, hcd, hhm, hdim, hnc, hstill]

/-- Witness for C4: an active observation (mean difference 100) arriving
500 ms after a detection neither flips the state from `Still` nor
triggers a new detection. -/
theorem cooldown_suppresses_detection_witness :
    activeInput.now - ({ calibratedState with
        isStill := true, lastDetectionTime := 1500 } : DetectorState).lastDetectionTime ≤ 1000 ∧
    (processFrame { calibratedState with isStill := true, lastDetectionTime := 1500 }
        activeInput).detectInvoked = false ∧
    (processFrame { calibratedState with isStill := true, lastDetectionTime := 1500 }
        activeInput).state.isStill = true := by
  refine ⟨by with_unfolding_all decide, ?_, ?_⟩ <;>
    [exact (cooldown_suppresses_detection _ activeInput sampleCalibration
      sampleHomography (by with_unfolding_all decide) (by with_unfolding_all decide)
      (by with_unfolding_all decide) (by with_unfolding_all decide)
      (by with_unfolding_all decide) (by with_unfolding_all decide)
      (by with_unfolding_all decide) (by with_unfolding_all decide)).1;
     exact (cooldown_suppresses_detection _ activeInput sampleCalibration
      sampleHomography (by with_unfolding_all decide) (by with_unfolding_all decide)
      (by with_unfolding_all decide) (by with_unfolding_all decide)
      (by with_unfolding_all decide) (by with_unfolding_all decide)
      (by with_unfolding_all decide) (by with_unfolding_all decide)).2]

/-- Claim C2.  On a frame whose dimensions differ from the source
dimensions of the stored calibration, the code invalidates the stored
record (memory and persistence are cleared) — but, contrary to the
claim, it does not refuse to rectify that frame: it still takes the
warped display path using the stale record captured at entry (the
cleared calibration only takes effect on the next invocation), and it
still feeds the frame to the stillness machine — the quiet observation
flips the state to `Still` and the warped frame is captured as the
pre-throw baseline.  The mismatch error message is also lost: the
`setError(null)` queued by `resetCalibration` overwrites it, so the
frame ends with no error reported. -/
theorem dimension_mismatch_still_warps :
    (processFrame calibratedState mismatchInput).display = .warpedView ∧
    (processFrame calibratedState mismatchInput).state.calibrationData = none ∧
    (processFrame calibratedState mismatchInput).state.storage = none ∧
    (processFrame calibratedState mismatchInput).state.errorMsg = none ∧
    (processFrame calibratedState mismatchInput).state.isStill = true ∧
    (processFrame calibratedState mismatchInput).state.stillBefore =
      some mismatchInput.warpedFrame := by
  with_unfolding_all decide

/-- Claim C1.  The spec table demands: a canonical point at the angular
centre of the 20 segment (straight up from the board centre, atan2 angle
90°) at a single-ring radial distance scores 20 with multiplier 1, and
at a triple-ring distance scores 60.  The code returns 3 and 9 there:
its angle adjustment adds 90° to the mathematical angle instead of
subtracting the angle from 90°, which mirrors the board top-to-bottom
(the point straight up is scored as segment index 10, face value 3),
contradicting the comments in the source that declare 0° to be the
12-o'clock direction of the `segmentScores` order. -/
theorem getScoreFromCoords_top_center_scores_three :
    getScoreFromCoords 60 90 = ⟨3, 1⟩ ∧ getScoreFromCoords (255 / 2) 90 = ⟨9, 1⟩ := by
  with_unfolding_all decide

/-- Claim C5.  The radial bands are checked bull-first with inclusive
boundaries: distance at most the inner-bull radius 8 scores 50, else at
most the outer-bull radius 20 scores 25, else strictly beyond the outer
border radius 215 scores 0 — for any angle. -/
theorem getScoreFromCoords_radial_bands (dist atan2Deg : ℚ) :
    (dist ≤ 8 → getScoreFromCoords dist atan2Deg = ⟨50, 1⟩) ∧
    (8 < dist → dist ≤ 20 → getScoreFromCoords dist atan2Deg = ⟨25, 1⟩) ∧
    (215 < dist → getScoreFromCoords dist atan2Deg = ⟨0, 1⟩) := by
  refine ⟨fun h1 => ?_, fun h1 h2 => ?_, fun h1 => ?_⟩ <;>
    unfold getScoreFromCoords
  · rw [if_pos h1]
  · rw [if_neg (not_le.mpr h1), if_pos h2]
  · rw [if_neg (not_le.mpr (lt_trans (by norm_num) h1)),
      if_neg (not_le.mpr (lt_trans (by norm_num) h1)), if_pos h1]

/-- Witness for C5 at the boundary distances 8, 20 and 216 = 215 + 1. -/
theorem getScoreFromCoords_radial_bands_witness :
    ((8 : ℚ) ≤ 8 ∧ getScoreFromCoords 8 0 = ⟨50, 1⟩) ∧
    ((8 : ℚ) < 20 ∧ (20 : ℚ) ≤ 20 ∧ getScoreFromCoords 20 0 = ⟨25, 1⟩) ∧
    ((215 : ℚ) < 216 ∧ getScoreFromCoords 216 0 = ⟨0, 1⟩) :=
  ⟨⟨le_refl 8, (getScoreFromCoords_radial_bands 8 0).1 (le_refl 8)⟩,
   ⟨by with_unfolding_all decide, le_refl 20,
    (getScoreFromCoords_radial_bands 20 0).2.1 (by with_unfolding_all decide) (le_refl 20)⟩,
   ⟨by with_unfolding_all decide,
    (getScoreFromCoords_radial_bands 216 0).2.2 (by with_unfolding_all decide)⟩⟩

/-- Claim C9.  In every branch of the manual-board `calculateScore` the
returned points equal segment times multiplier (50 = 25·2 inner bull,
25 = 25·1 outer bull, 0 = 0·1 miss, face value times ring multiplier
otherwise). -/
theorem calculateScore_points_eq_segment_mul_multiplier (dist atan2Deg : ℚ) :
    (calculateScore dist atan2Deg).points =
      (calculateScore dist atan2Deg).segment * (calculateScore dist atan2Deg).multiplier := by
  unfold calculateScore
  split_ifs <;> rfl

/-- Claim C7.  Both variants of the dart-detection routine end by
replacing the held pre-throw reference with the post-throw frame that
was passed in, on every invocation — whatever the contour filter and tip
extraction produced. -/
theorem detectDart_advances_baseline :
    (∀ (s : DetectorState) (fa fb : Frame) (cs : List (List (ℤ × ℤ))) (t : ℚ),
       (detectDart s fa fb cs t).1.stillBefore = some fa) ∧
    (∀ (s : DetectorState) (fa fb : Frame) (cs : List (List (ℤ × ℤ))),
       (detectDartV2 s fa fb cs).1.stillBefore = some fa) :=
  ⟨fun _ _ _ _ _ => rfl, fun _ _ _ _ => rfl⟩

/-- Counterexample to claim C6 as stated: after a failed homography
solve the four collected points are retained, not discarded — with four
points collected and a failing solve, the resulting point list is still
the original nonempty list. -/
theorem calibration_failure_retains_points_cex :
    (calculateAndStoreHomography
        { initialDetectorState with
            cvLoaded := true, isCalibrating := true,
            clickedPoints := [(1, 2), (3, 4), (5, 6), (7, 8)],
            calibrationData := some sampleCalibration,
            storage := some sampleCalibration }
        none).clickedPoints = [(1, 2), (3, 4), (5, 6), (7, 8)] ∧
    ([(1, 2), (3, 4), (5, 6), (7, 8)] : List (ℚ × ℚ)) ≠ [] := by
  with_unfolding_all decide

/-- Claim C6 as amended: when the solve over the 4 submitted points
fails, the engine stays in collection mode (the calibrating flag is
unchanged), signals the calibration-failed condition, and leaves the
prior record in memory and in persistence untouched — but the 4
collected points are retained, not discarded. -/
theorem calibration_failure_amended (s : DetectorState)
    (hcv : s.cvLoaded = true) (hlen : s.clickedPoints.length = 4) :
    (calculateAndStoreHomography s none).isCalibrating = s.isCalibrating ∧
    (calculateAndStoreHomography s none).errorMsg = some .calibrationFailed ∧
    (calculateAndStoreHomography s none).calibrationData = s.calibrationData ∧
    (calculateAndStoreHomography s none).storage = s.storage ∧
    (calculateAndStoreHomography s none).clickedPoints = s.clickedPoints := by
  unfold calculateAndStoreHomography
  rw [if_neg (by simp [hcv, hlen])]
  exact ⟨rfl, rfl, rfl, rfl, rfl⟩

/-- Witness for the amended C6 at a concrete collecting state. -/
theorem calibration_failure_amended_witness :
    (calculateAndStoreHomography
        { initialDetectorState with
            cvLoaded := true, isCalibrating := true,
            clickedPoints := [(1, 2), (3, 4), (5, 6), (7, 8)] }
        none).errorMsg = some .calibrationFailed :=
  (calibration_failure_amended _ (by with_unfolding_all decide)
    (by with_unfolding_all decide)).2.1

/-- Counterexample to claim C8 as stated: a persisted record whose point
lists are present but empty (zero points, not exactly 4) is still
restored, because the source only checks the three fields for
truthiness and a JavaScript array is truthy regardless of length. -/
theorem loadPersisted_restores_empty_points_cex :
    (loadPersisted (some ⟨some [], some [], some sampleHomography, ⟨640, 480⟩⟩)).1 =
      some ⟨some [], some [], some sampleHomography, ⟨640, 480⟩⟩ ∧
    (some ([] : List (ℚ × ℚ))).any (fun l => l.length ≠ 4) = true := by
  with_unfolding_all decide

/-- Claim C8 as amended: `loadPersisted` restores a persisted record if
and only if its three checked fields (image points, world points,
homography matrix) are present (non-null) — no arity check is made on
the point lists — and otherwise the stored data is discarded silently,
removed from storage without restoring a record. -/
theorem loadPersisted_amended (d : ParsedCalibration) :
    ((loadPersisted (some d)).1 = some d ↔
      (d.imagePoints.isSome ∧ d.worldPoints.isSome ∧ d.homographyMatrix.isSome)) ∧
    (¬ (d.imagePoints.isSome ∧ d.worldPoints.isSome ∧ d.homographyMatrix.isSome) →
      loadPersisted (some d) = (none, none)) ∧
    loadPersisted none = (none, none) := by
  have hred : loadPersisted (some d) =
      if d.imagePoints.isSome ∧ d.worldPoints.isSome ∧ d.homographyMatrix.isSome
      then (some d, some d) else (none, none) := rfl
  refine ⟨?_, fun hbad => ?_, rfl⟩
  · rw [hred]
    by_cases hv : d.imagePoints.isSome ∧ d.worldPoints.isSome ∧ d.homographyMatrix.isSome
    · rw [if_pos hv]
      simp [hv]
    · rw [if_neg hv]
      simp [hv]
  · rw [hred, if_neg hbad]

/-! ### Lemmas on the strict-improvement selection loop -/

/-- The running maximum of the selection loop never decreases. -/
lemma argmaxFold_snd_le {α : Type} (f : α → ℚ) (l : List α) (init : Option α × ℚ) :
    init.2 ≤ (argmaxFold f l init).2 := by
  induction l generalizing init with
  | nil => exact le_refl _
  | cons p t ih =>
    simp only [argmaxFold, List.foldl_cons] at ih ⊢
    refine le_trans ?_ (ih _)
    by_cases h : init.2 < f p
    · rw [if_pos h]
      exact le_of_lt h
    · rw [if_neg h]

/-- Every scanned element is bounded by the final running maximum. -/
lemma argmaxFold_le_of_mem {α : Type} (f : α → ℚ) (l : List α) (init : Option α × ℚ) :
    ∀ q ∈ l, f q ≤ (argmaxFold f l init).2 := by
  induction l generalizing init with
  | nil =>
    intro q hq
    cases hq
  | cons p t ih =>
    intro q hq
    simp only [argmaxFold, List.foldl_cons] at ih ⊢
    rcases List.mem_cons.mp hq with rfl | hq2
    · refine le_trans ?_ (argmaxFold_snd_le f t _)
      by_cases h : init.2 < f q
      · rw [if_pos h]
      · rw [if_neg h]
        exact not_lt.mp h
    · exact ih _ q hq2

/-- The selection loop either leaves its accumulator unchanged or
returns some scanned element paired with its value. -/
lemma argmaxFold_result {α : Type} (f : α → ℚ) (l : List α) (init : Option α × ℚ) :
    argmaxFold f l init = init ∨ ∃ p ∈ l, argmaxFold f l init = (some p, f p) := by
  induction l generalizing init with
  | nil => exact Or.inl rfl
  | cons p t ih =>
    simp only [argmaxFold, List.foldl_cons] at ih ⊢
    by_cases h : init.2 < f p
    · rw [if_pos h]
      rcases ih (some p, f p) with heq | ⟨r, hr, heq⟩
      · exact Or.inr ⟨p, List.mem_cons_self p t, heq⟩
      · exact Or.inr ⟨r, List.mem_cons_of_mem p hr, heq⟩
    · rw [if_neg h]
      rcases ih init with heq | ⟨r, hr, heq⟩
      · exact Or.inl heq
      · exact Or.inr ⟨r, List.mem_cons_of_mem p hr, heq⟩

/-- The squared distance computed by the tip loop is nonnegative. -/
lemma distSqTo_nonneg (cX cY : ℚ) (p : ℤ × ℤ) : 0 ≤ distSqTo cX cY p :=
  add_nonneg (mul_self_nonneg _) (mul_self_nonneg _)

/-- On a nonempty list with a nonnegative score and the source's
initial accumulator `(null, -1)`, the selection loop returns a member
attaining the maximum of `f`. -/
lemma argmaxFold_pick {α : Type} (f : α → ℚ) (hf : ∀ a, 0 ≤ f a) (h : α) (t : List α) :
    ∃ p ∈ h :: t, argmaxFold f (h :: t) (none, -1) = (some p, f p) ∧
      ∀ q ∈ h :: t, f q ≤ f p := by
  rcases argmaxFold_result f (h :: t) (none, -1) with heq | ⟨p, hp, heq⟩
  · exfalso
    have h1 : f h ≤ (argmaxFold f (h :: t) ((none : Option α), (-1 : ℚ))).2 :=
      argmaxFold_le_of_mem f (h :: t) (none, -1) h (List.mem_cons_self h t)
    rw [heq] at h1
    have h2 : f h ≤ (-1 : ℚ) := h1
    exact absurd (le_trans (hf h) h2) (by norm_num)
  · refine ⟨p, hp, heq, fun q hq => ?_⟩
    have h1 := argmaxFold_le_of_mem f (h :: t) (none, -1) q hq
    rw [heq] at h1
    exact h1

/-- Claim C10.  `findDartTip` returns `null` exactly when the contour
has no points or its zeroth moment is 0; otherwise it returns a member
of the contour whose Euclidean distance from the contour centroid
`(m10/m00, m01/m00)` is maximal among the contour points. -/
theorem findDartTip_none_iff_and_max_distance :
    (∀ c : List (ℤ × ℤ), findDartTip c = none ↔ c = [] ∨ (moments c).m00 = 0) ∧
    (∀ (c : List (ℤ × ℤ)) (t : ℤ × ℤ), findDartTip c = some t →
      t ∈ c ∧ ∀ q ∈ c,
        Real.sqrt ((distSqTo ((moments c).m10 / (moments c).m00)
            ((moments c).m01 / (moments c).m00) q : ℚ) : ℝ) ≤
        Real.sqrt ((distSqTo ((moments c).m10 / (moments c).m00)
            ((moments c).m01 / (moments c).m00) t : ℚ) : ℝ)) := by
  constructor
  · intro c
    cases c with
    | nil => simp [findDartTip]
    | cons h t =>
      by_cases hm : (moments (h :: t)).m00 = 0
      · simp [findDartTip, hm]
      · obtain ⟨p, hp, heq, hmax⟩ :=
          argmaxFold_pick
            (distSqTo ((moments (h :: t)).m10 / (moments (h :: t)).m00)
              ((moments (h :: t)).m01 / (moments (h :: t)).m00))
            (fun a => distSqTo_nonneg _ _ a) h t
        simp [findDartTip, hm, heq]
  · intro c t ht
    cases c with
    | nil => simp [findDartTip] at ht
    | cons h tl =>
      by_cases hm : (moments (h :: tl)).m00 = 0
      · simp [findDartTip, hm] at ht
      · obtain ⟨p, hp, heq, hmax⟩ :=
          argmaxFold_pick
            (distSqTo ((moments (h :: tl)).m10 / (moments (h :: tl)).m00)
              ((moments (h :: tl)).m01 / (moments (h :: tl)).m00))
            (fun a => distSqTo_nonneg _ _ a) h tl
        have hfd : findDartTip (h :: tl) = some p := by
          simp [findDartTip, hm, heq]
        rw [hfd] at ht
        have hpt : p = t := by
          injection ht
        subst hpt
        refine ⟨hp, fun q hq => Real.sqrt_le_sqrt ?_⟩
        exact_mod_cast hmax q hq

/-- Witness for C10 on the triangle contour `[(0,0), (4,0), (0,3)]`
(moments `m00 = 6`, centroid `(4/3, 1)`): the tip is the member
`(4, 0)`. -/
theorem findDartTip_witness :
    findDartTip [(0, 0), (4, 0), (0, 3)] = some (4, 0) ∧
    ((4 : ℤ), (0 : ℤ)) ∈ [((0 : ℤ), (0 : ℤ)), (4, 0), (0, 3)] := by
  have hfd : findDartTip [(0, 0), (4, 0), (0, 3)] = some (4, 0) := by
    with_unfolding_all decide
  exact ⟨hfd, (findDartTip_none_iff_and_max_distance.2 _ _ hfd).1⟩

/-- Witness for the amended C8: a complete record is restored, one with
a null matrix is dropped and erased from storage. -/
theorem loadPersisted_amended_witness :
    (loadPersisted (some ⟨some [(1, 1)], some [(2, 2)], some sampleHomography, ⟨640, 480⟩⟩)).1 =
      some ⟨some [(1, 1)], some [(2, 2)], some sampleHomography, ⟨640, 480⟩⟩ ∧
    loadPersisted (some ⟨some [(1, 1)], some [(2, 2)], none, ⟨640, 480⟩⟩) = (none, none) :=
  ⟨(loadPersisted_amended _).1.mpr (by with_unfolding_all decide),
   (loadPersisted_amended _).2.1 (by with_unfolding_all decide)⟩

end NoBullsHit
